import Mathlib

/-!
Verification development for the Micro-Hedge-Dashboard backtesting engine
(`backtesting_engine.py`).  The engine is shallowly embedded: pandas
Series/DataFrames become Lean lists and functions over date positions,
NaN becomes `none : Option ℚ`, and the pandas operations used by the
code (`pct_change`, `rolling(20).max/min`, `shift(1).fillna(False)`,
masked `.loc` assignment, `cumprod`, `nlargest(2)`, `np.select`,
`shift(1)`-based change filtering) are modelled with their documented
semantics: comparisons against NaN are `false`, arithmetic propagates
NaN, `cumprod` leaves NaN at missing positions but keeps accumulating
past them (skipna), `nlargest` drops NaN and keeps first occurrence on
ties, and `mean` skips NaN (an all-NaN or empty selection has NaN mean).
-/

set_option autoImplicit false
set_option maxRecDepth 100000

namespace Backtest

/-- Trading-date-indexed table of adjusted closing prices, as produced by
`get_data`: one column per ticker symbol, rows are the `n` trading dates in
ascending order (positions `0 .. n-1`), already forward-filled; `none`
models a missing value (NaN), e.g. leading dates before a ticker's first
observation. -/
structure PriceTable where
  n : ℕ
  price : String → ℕ → Option ℚ

/-- Hard-coded benchmark ticker of `run_full_backtest`. -/
def benchmark_index : String := "^NSEI"

/-- Hard-coded neutral-instrument ticker of `run_full_backtest`. -/
def neutral_etf : String := "NIFTYBEES.NS"

/-- Hard-coded defensive-instrument ticker of `run_full_backtest`. -/
def safe_haven_etf : String := "GOLDBEES.NS"

/-- NaN-propagating addition on model values. -/
def oAdd : Option ℚ → Option ℚ → Option ℚ
  | some a, some b => some (a + b)
  | _, _ => none

/-- NaN-propagating subtraction on model values. -/
def oSub : Option ℚ → Option ℚ → Option ℚ
  | some a, some b => some (a - b)
  | _, _ => none

/-- NaN-propagating division on model values. -/
def oDiv : Option ℚ → Option ℚ → Option ℚ
  | some a, some b => some (a / b)
  | _, _ => none

/-- Pandas `series < c`: a NaN entry compares as `false`. -/
def oLt (x : Option ℚ) (c : ℚ) : Bool :=
  match x with
  | some a => decide (a < c)
  | none => false

/-- Pandas `series > c`: a NaN entry compares as `false`. -/
def oGt (x : Option ℚ) (c : ℚ) : Bool :=
  match x with
  | some a => decide (c < a)
  | none => false

/-- The slots of the width-`w` trailing window ending at position `j`
(inclusive), in order; only meaningful when `w ≤ j + 1`. -/
def windowVals (pt : PriceTable) (s : String) (w j : ℕ) : List (Option ℚ) :=
  (List.range w).map (fun k => pt.price s (j + 1 - w + k))

/-- Maximum of a list of rationals (`none` on the empty list). -/
def aggMax : List ℚ → Option ℚ
  | [] => none
  | x :: xs => some (xs.foldl max x)

/-- Minimum of a list of rationals (`none` on the empty list). -/
def aggMin : List ℚ → Option ℚ
  | [] => none
  | x :: xs => some (xs.foldl min x)

/-- `price_data[benchmark].rolling(window=w).max()` at position `j`:
pandas requires `min_periods = w` non-NaN observations in the trailing
window, so the result is NaN while fewer than `w` rows exist or whenever
the window contains a NaN. -/
def rollingMax (pt : PriceTable) (s : String) (w j : ℕ) : Option ℚ :=
  if w ≤ j + 1 then
    if (windowVals pt s w j).all Option.isSome then
      aggMax ((windowVals pt s w j).filterMap id)
    else none
  else none

/-- `price_data[benchmark].rolling(window=w).min()` at position `j`
(same NaN discipline as `rollingMax`). -/
def rollingMin (pt : PriceTable) (s : String) (w j : ℕ) : Option ℚ :=
  if w ≤ j + 1 then
    if (windowVals pt s w j).all Option.isSome then
      aggMin ((windowVals pt s w j).filterMap id)
    else none
  else none

/-- `drawdown = price_data[benchmark] / rolling_max - 1` at position `j`. -/
def drawdown (pt : PriceTable) (j : ℕ) : Option ℚ :=
  oSub (oDiv (pt.price benchmark_index j) (rollingMax pt benchmark_index 20 j)) (some 1)

/-- `upward_move = price_data[benchmark] / rolling_min - 1` at position `j`. -/
def upward_move (pt : PriceTable) (j : ℕ) : Option ℚ :=
  oSub (oDiv (pt.price benchmark_index j) (rollingMin pt benchmark_index 20 j)) (some 1)

/-- Raw (unshifted) risk-off condition `drawdown < -risk_off_pct/100` at
position `j`. -/
def rawRiskOff (pt : PriceTable) (a : ℚ) (j : ℕ) : Bool :=
  oLt (drawdown pt j) (-a / 100)

/-- Raw (unshifted) risk-on condition
`(upward_move > risk_on_pct/100) & (drawdown > -risk_off_pct/100)` at
position `j`. -/
def rawRiskOn (pt : PriceTable) (a b : ℚ) (j : ℕ) : Bool :=
  oGt (upward_move pt j) (b / 100) && oGt (drawdown pt j) (-a / 100)

/-- `returns['signal_risk_off'] = (drawdown < -a/100).shift(1).fillna(False)`:
the value acted on at position `t` is the raw condition at `t - 1`, and the
first position defaults to `false`. -/
def signalRiskOff (pt : PriceTable) (a : ℚ) (t : ℕ) : Bool :=
  if t = 0 then false else rawRiskOff pt a (t - 1)

/-- `returns['signal_risk_on'] = ((upward_move > b/100) & (drawdown > -a/100)).shift(1).fillna(False)`. -/
def signalRiskOn (pt : PriceTable) (a b : ℚ) (t : ℕ) : Bool :=
  if t = 0 then false else rawRiskOn pt a b (t - 1)

/-- One cell of `price_data.pct_change()`: the day-over-day percent change
of column `s` at position `t` (NaN on the first row and wherever either
price is missing). -/
def ret (pt : PriceTable) (s : String) (t : ℕ) : Option ℚ :=
  if t = 0 then none else oSub (oDiv (pt.price s t) (pt.price s (t - 1))) (some 1)

/-- One cell of `price_data[valid_stock_list].pct_change(60).shift(1)`:
the trailing 60-session momentum available at position `t` (computed from
prices at `t - 1` and `t - 61` only, NaN while fewer than 62 sessions have
been observed or a source price is missing). -/
def momentum (pt : PriceTable) (s : String) (t : ℕ) : Option ℚ :=
  if t = 0 then none
  else if 60 ≤ t - 1 then
    oSub (oDiv (pt.price s (t - 1)) (pt.price s (t - 1 - 60))) (some 1)
  else none

/-- Stable descending insertion used to model `Series.nlargest`: an element
is placed before an existing one only when its key is at least as large,
which together with `List.foldr` keeps earlier symbols first on ties
(pandas `keep='first'`). -/
def insertDesc (x : String × ℚ) : List (String × ℚ) → List (String × ℚ)
  | [] => [x]
  | y :: ys => if y.2 ≤ x.2 then x :: y :: ys else y :: insertDesc x ys

/-- `momentum_row.nlargest(2).index.tolist()` at position `t`: NaN momenta
are dropped, the remaining candidates are ranked by momentum descending
(stable), and the first two symbols are kept. -/
def topStocks (pt : PriceTable) (stocks : List String) (t : ℕ) : List String :=
  (((stocks.filterMap fun s => (momentum pt s t).map fun m => (s, m)).foldr
      insertDesc []).take 2).map Prod.fst

/-- Pandas `row[selection].mean()` (skipna): the mean of the non-NaN values,
NaN when the selection is empty or entirely NaN. -/
def meanOpt (vals : List (Option ℚ)) : Option ℚ :=
  match vals.filterMap id with
  | [] => none
  | x :: xs => some ((x :: xs).sum / ((x :: xs).length : ℚ))

/-- `top_stock_returns` at position `t`: the mean of the returns-row values
of the top-2 momentum symbols. -/
def top_stock_returns (pt : PriceTable) (stocks : List String) (t : ℕ) : Option ℚ :=
  meanOpt ((topStocks pt stocks t).map fun s => ret pt s t)

/-- One masked `.loc` assignment: on rows where `cond` holds the column cell
is overwritten with `newv`, elsewhere the previous cell `oldv` is kept. -/
def overwriteIf (cond : Bool) (newv oldv : Option ℚ) : Option ℚ :=
  if cond then newv else oldv

/-- `returns['buy_and_hold'] = returns[benchmark_index]` at position `t`. -/
def buy_and_hold (pt : PriceTable) (t : ℕ) : Option ℚ :=
  ret pt benchmark_index t

/-- `returns['safe_hedge']`: initialized to the neutral ETF's return, then
overwritten with the defensive ETF's return on the rows where
`signal_risk_off` is true. -/
def safe_hedge (pt : PriceTable) (a : ℚ) (t : ℕ) : Option ℚ :=
  overwriteIf (signalRiskOff pt a t) (ret pt safe_haven_etf t) (ret pt neutral_etf t)

/-- `returns['dynamic_strat']`: initialized to the neutral ETF's return,
overwritten with the defensive ETF's return on `risk_off_days`, then
overwritten with `top_stock_returns` on `risk_on_days` (the later
assignment wins where both masks hold). -/
def dynamic_strat (pt : PriceTable) (stocks : List String) (a b : ℚ) (t : ℕ) : Option ℚ :=
  overwriteIf (signalRiskOn pt a b t) (top_stock_returns pt stocks t)
    (overwriteIf (signalRiskOff pt a t) (ret pt safe_haven_etf t) (ret pt neutral_etf t))

/-- The column set of the fetched price table relevant to
`returns.dropna(how='all')`: the three essential tickers plus the
user-supplied candidate list.  (Candidates that fetched no data have
all-NaN return cells, so including them never changes an all-NaN test.) -/
def allCols (stocks : List String) : List String :=
  benchmark_index :: neutral_etf :: safe_haven_etf :: stocks

/-- A returns row is dropped by `dropna(how='all')` when every column's
cell is NaN. -/
def rowAllNaN (pt : PriceTable) (cols : List String) (t : ℕ) : Bool :=
  cols.all fun s => (ret pt s t).isNone

/-- The date index of `returns = price_data.pct_change().dropna(how='all')`:
the positions whose return row is not entirely NaN (position 0 always is,
so it is always dropped). -/
def returnsIndex (pt : PriceTable) (stocks : List String) : List ℕ :=
  (List.range pt.n).filter fun t => !(rowAllNaN pt (allCols stocks) t)

/-- `np.select([signal_risk_on, signal_risk_off], ["Attack", "Defense"],
default="Neutral")` at position `t`: the first true condition wins. -/
def resolveMode (pt : PriceTable) (a b : ℚ) (t : ℕ) : String :=
  if signalRiskOn pt a b t then "Attack"
  else if signalRiskOff pt a t then "Defense"
  else "Neutral"

/-- The `Assets` column of `log_data`: the neutral ETF by default, the
defensive ETF on `Defense` rows, and the top-2 momentum symbols on
`Attack` rows.  (A single ticker is modelled as a one-element list.) -/
def logAssets (pt : PriceTable) (stocks : List String) (a b : ℚ) (t : ℕ) : List String :=
  if resolveMode pt a b t = "Attack" then topStocks pt stocks t
  else if resolveMode pt a b t = "Defense" then [safe_haven_etf]
  else [neutral_etf]

/-- One row of the trade log table `{Date, Mode, Action, New Assets}`. -/
structure TradeLogEntry where
  date : ℕ
  mode : String
  action : String
  assets : List String
deriving DecidableEq, Repr

/-- Keeps from the zipped (row, previous-row-mode) list the rows where
pandas `Mode != prev_mode` holds: a string never equals the NaN produced
by `shift(1)` at the first row, so the first row is always kept. -/
def tradeLogFilter (pt : PriceTable) (stocks : List String) (a b : ℚ) :
    List (ℕ × Option String) → List TradeLogEntry
  | [] => []
  | (t, prev) :: rest =>
    if prev = some (resolveMode pt a b t) then tradeLogFilter pt stocks a b rest
    else
      ⟨t, resolveMode pt a b t, "ENTER", logAssets pt stocks a b t⟩ ::
        tradeLogFilter pt stocks a b rest

/-- `log_data['prev_mode'] = log_data['Mode'].shift(1)` as a list: the first
row gets NaN (`none`), every later row gets the previous row's mode. -/
def shiftedModes (pt : PriceTable) (a b : ℚ) (idx : List ℕ) : List (Option String) :=
  none :: idx.map fun t => some (resolveMode pt a b t)

/-- The trade log of `run_full_backtest`: the rows of `log_data` (indexed by
the returns index) whose mode differs from the previous row's mode, where
the first row's previous mode is the NaN introduced by `shift(1)`. -/
def tradeLog (pt : PriceTable) (stocks : List String) (a b : ℚ) : List TradeLogEntry :=
  let idx := returnsIndex pt stocks
  tradeLogFilter pt stocks a b (idx.zip (shiftedModes pt a b idx))

/-- Pandas `Series.cumprod()` with its default `skipna=True`: a NaN input
cell yields a NaN output cell, but the running product continues past it
unchanged. -/
def cumprodAux (acc : ℚ) : List (Option ℚ) → List (Option ℚ)
  | [] => []
  | none :: xs => none :: cumprodAux acc xs
  | some x :: xs => some (acc * x) :: cumprodAux (acc * x) xs

/-- `series.cumprod()` (running product starting from 1). -/
def cumprodSkipna (xs : List (Option ℚ)) : List (Option ℚ) :=
  cumprodAux 1 xs

/-- The `results` table: the returns index together with the three
cumulative columns `(1 + strategy_return).cumprod()`. -/
structure ResultsTable where
  dates : List ℕ
  buy_and_hold_cumulative : List (Option ℚ)
  safe_hedge_cumulative : List (Option ℚ)
  dynamic_strat_cumulative : List (Option ℚ)
deriving DecidableEq, Repr

/-- `pd.DataFrame()`: the empty results table. -/
def emptyResults : ResultsTable := ⟨[], [], [], []⟩

/-- A fetched column survives `price_data.dropna(axis='columns', how='all')`
exactly when it holds at least one non-NaN price. -/
def hasData (pt : PriceTable) (s : String) : Bool :=
  (List.range pt.n).any fun j => (pt.price s j).isSome

/-- `valid_stock_list`: the user candidates whose columns survived the
data cleaning. -/
def validStockList (pt : PriceTable) (stocks : List String) : List String :=
  stocks.filter fun s => hasData pt s

/-- The engine's validation: the three essential tickers must survive the
column cleaning and at least two candidates must remain. -/
def validationOk (pt : PriceTable) (stocks : List String) : Bool :=
  hasData pt benchmark_index && hasData pt neutral_etf && hasData pt safe_haven_etf &&
    decide (2 ≤ (validStockList pt stocks).length)

/-- Assembles the `results` table of a validated run. -/
def resultsTable (pt : PriceTable) (stocks : List String) (a b : ℚ) : ResultsTable :=
  let idx := returnsIndex pt stocks
  let valid := validStockList pt stocks
  ⟨idx,
   cumprodSkipna (idx.map fun t => oAdd (some 1) (buy_and_hold pt t)),
   cumprodSkipna (idx.map fun t => oAdd (some 1) (safe_hedge pt a t)),
   cumprodSkipna (idx.map fun t => oAdd (some 1) (dynamic_strat pt valid a b t))⟩

/-- `run_full_backtest(capital, start, end, stock_list, risk_off_pct,
risk_on_pct)` after the external `get_data` fetch (the fetched table `pt`
is the input here; `capital`, `start_date` and `end_date` only parametrize
that excluded fetch).  On validation failure the engine returns the pair
of empty tables; otherwise it returns the assembled results table and
trade log. -/
def run_full_backtest (pt : PriceTable) (stock_list : List String) (a b : ℚ) :
    ResultsTable × List TradeLogEntry :=
  if validationOk pt stock_list then
    (resultsTable pt stock_list a b,
     tradeLog pt (validStockList pt stock_list) a b)
  else (emptyResults, [])

/-- The derived daily-return series of `calculate_performance_metrics`:
`cumulative_returns.pct_change().dropna()` (position 0 is always NaN and
is dropped together with every other NaN). -/
def metricsDailyReturns (c : List (Option ℚ)) : List ℚ :=
  ((List.range c.length).map fun t =>
      if t = 0 then none
      else oSub (oDiv (c.getD t none) (c.getD (t - 1) none)) (some 1)).filterMap id

/-- `daily_returns.std() == 0`: the sample standard deviation (ddof = 1) is
NaN for fewer than two observations — and NaN compares unequal to 0 — and
is zero exactly when the sum of squared deviations from the mean is zero;
the square root is elided since `sqrt v = 0 ↔ v = 0`. -/
def stdIsZero (xs : List ℚ) : Bool :=
  if xs.length < 2 then false
  else decide ((xs.map fun x => (x - xs.sum / (xs.length : ℚ)) ^ 2).sum = 0)

/-- `calculate_performance_metrics`, abstracted to the list of metric keys
present in the returned dict (the claims under study are about which
fields are present; the values are display-formatted strings, and the
Sharpe value involves irrational square roots).  An empty or NaN-ending
cumulative series yields the empty dict; a zero-std daily-return series
yields only the total-return key; otherwise all four keys are returned. -/
def calculate_performance_metrics (c : List (Option ℚ)) : List String :=
  if c.isEmpty || (c.getLast?).join.isNone then []
  else if stdIsZero (metricsDailyReturns c) then ["Total Return (%)"]
  else ["Final Value", "Total Return (%)", "Sharpe Ratio", "Max Drawdown (%)"]

/-! Concrete price tables used as counterexamples and witnesses.  Each one
has the three essential tickers plus two candidate tickers with data, so a
run over it passes the engine's validation. -/

/-- Flat market: every instrument sits at 100 on all three dates, so all
signals stay false and every resolved mode is Neutral. -/
def ptFlat : PriceTable :=
  ⟨3, fun s _ =>
    if s = "^NSEI" ∨ s = "NIFTYBEES.NS" ∨ s = "GOLDBEES.NS" ∨ s = "AAA.NS" ∨ s = "BBB.NS"
    then some 100 else none⟩

/-- A 5% benchmark jump on the second date (everything else flat). -/
def ptJump : PriceTable :=
  ⟨3, fun s t =>
    if s = "^NSEI" then (if t = 0 then some 100 else some 105)
    else if s = "NIFTYBEES.NS" ∨ s = "GOLDBEES.NS" ∨ s = "AAA.NS" ∨ s = "BBB.NS"
    then some 100 else none⟩

/-- Benchmark flat at 100 for 21 sessions, then rising 110, 111, 112, 113:
a 10% up-move fires the raw risk-on condition from position 21 onward, so
the shifted risk-on signal is true on positions 22–24, while 60-day
momentum is still undefined everywhere (only 25 sessions exist). -/
def ptRally : PriceTable :=
  ⟨25, fun s t =>
    if s = "^NSEI" then (if t ≤ 20 then some 100 else some (89 + t))
    else if s = "NIFTYBEES.NS" ∨ s = "GOLDBEES.NS" ∨ s = "AAA.NS" ∨ s = "BBB.NS"
    then some 100 else none⟩

/-- `ptRally` with every price from position 22 onward replaced, used to
exercise the no-look-ahead theorem at date 22. -/
def ptRallyMut : PriceTable :=
  ⟨25, fun s t => if 22 ≤ t then some 42 else ptRally.price s t⟩

/-- A table with no data at all: every fetch failed, so validation aborts. -/
def ptEmpty : PriceTable := ⟨0, fun _ _ => none⟩

/-! Claim C3: mutual exclusivity of the two regime signals. -/

theorem oLt_and_oGt (x : Option ℚ) (c : ℚ) : (oLt x c && oGt x c) = false := by
  cases x with
  | none => rfl
  | some v =>
    unfold oLt oGt
    by_cases hv : v < c
    · have h2 : ¬ c < v := lt_asymm hv
      simp [hv, h2]
    · simp [hv]

/-- C3: for every price table, every pair of thresholds and every date, the
risk-off and risk-on signals are never both true: risk-off needs
`drawdown < -a/100` at the previous session while risk-on needs
`drawdown > -a/100` there, and a NaN drawdown makes both comparisons
false. -/
theorem c3_signals_mutually_exclusive (pt : PriceTable) (a b : ℚ) (t : ℕ) :
    (signalRiskOff pt a t && signalRiskOn pt a b t) = false := by
  unfold signalRiskOff signalRiskOn
  by_cases h : t = 0
  · simp [h]
  · simp only [if_neg h]
    unfold rawRiskOff rawRiskOn
    cases hoff : oLt (drawdown pt (t - 1)) (-a / 100) with
    | false => rfl
    | true =>
      have hx := oLt_and_oGt (drawdown pt (t - 1)) (-a / 100)
      rw [hoff, Bool.true_and] at hx
      rw [Bool.true_and, hx, Bool.and_false]

/-! Claim C6: both signals are false while fewer than 20 sessions precede
the date. -/

theorem oDiv_none_right (x : Option ℚ) : oDiv x none = none := by
  cases x <;> rfl

theorem oSub_none_left (y : Option ℚ) : oSub none y = none := by
  cases y <;> rfl

theorem drawdown_none_of_lt (pt : PriceTable) (j : ℕ) (h : j + 1 < 20) :
    drawdown pt j = none := by
  unfold drawdown rollingMax
  rw [if_neg (by omega)]
  rw [oDiv_none_right, oSub_none_left]

theorem upward_move_none_of_lt (pt : PriceTable) (j : ℕ) (h : j + 1 < 20) :
    upward_move pt j = none := by
  unfold upward_move rollingMin
  rw [if_neg (by omega)]
  rw [oDiv_none_right, oSub_none_left]

/-- C6: at any date with fewer than 20 trading sessions before it, both
regime signals are false whatever the thresholds are: the 20-session
rolling aggregates at the previous session are still NaN, so the raw
conditions compare NaN and yield false (and the very first date is false
by the `shift(1).fillna(False)`). -/
theorem c6_signals_false_before_20 (pt : PriceTable) (a b : ℚ) (t : ℕ) (h : t < 20) :
    signalRiskOff pt a t = false ∧ signalRiskOn pt a b t = false := by
  unfold signalRiskOff signalRiskOn
  by_cases h0 : t = 0
  · simp [h0]
  · rw [if_neg h0, if_neg h0]
    unfold rawRiskOff rawRiskOn
    rw [drawdown_none_of_lt pt (t - 1) (by omega), upward_move_none_of_lt pt (t - 1) (by omega)]
    exact ⟨rfl, rfl⟩

/-- Witness for C6 at a concrete run: date 10 of the flat table has only 10
earlier sessions, and both signals are false there. -/
theorem c6_witness :
    10 < 20 ∧ (signalRiskOff ptFlat 8 10 = false ∧ signalRiskOn ptFlat 8 5 10 = false) :=
  ⟨by omega, c6_signals_false_before_20 ptFlat 8 5 10 (by omega)⟩

/-! Claim C5: the Dynamic strategy resolves exactly one mode per date with
risk-on precedence. -/

/-- The Dynamic strategy's daily return as §4.2 of the spec words it: first
resolve the single mode of the date (risk-on wins, then risk-off, else
Neutral), then pay the mean of the top-2 momentum candidates' returns in
Attack, the defensive return in Defense and the neutral return otherwise.
This is the specification-side definition that the code's sequential
masked-overwrite construction is compared against. -/
def dynamicSpecReturn (pt : PriceTable) (stocks : List String) (a b : ℚ) (t : ℕ) : Option ℚ :=
  if resolveMode pt a b t = "Attack" then
    meanOpt ((topStocks pt stocks t).map fun s => ret pt s t)
  else if resolveMode pt a b t = "Defense" then ret pt safe_haven_etf t
  else ret pt neutral_etf t

/-- C5: the code's `dynamic_strat` column (neutral return, overwritten by
the defensive return on risk-off rows, overwritten by the top-2 mean on
risk-on rows) coincides with the spec's single-mode resolution with
risk-on precedence. -/
theorem c5_dynamic_mode_resolution (pt : PriceTable) (stocks : List String) (a b : ℚ) (t : ℕ) :
    dynamic_strat pt stocks a b t = dynamicSpecReturn pt stocks a b t := by
  have hDA : ("Defense" : String) ≠ "Attack" := by decide
  have hNA : ("Neutral" : String) ≠ "Attack" := by decide
  have hND : ("Neutral" : String) ≠ "Defense" := by decide
  unfold dynamic_strat dynamicSpecReturn resolveMode overwriteIf top_stock_returns
  by_cases hOn : signalRiskOn pt a b t <;> by_cases hOff : signalRiskOff pt a t <;>
    simp [hOn, hOff, hDA, hNA, hND]

/-! Claim C4: the signals (and the momentum selection) acted on at date `t`
are a function of prices strictly before `t`. -/

theorem windowVals_congr (pt1 pt2 : PriceTable) (s : String) (w j : ℕ)
    (hw : w ≤ j + 1) (h : ∀ j', j' ≤ j → pt1.price s j' = pt2.price s j') :
    windowVals pt1 s w j = windowVals pt2 s w j := by
  unfold windowVals
  apply List.map_congr_left
  intro k hk
  exact h _ (by have := List.mem_range.mp hk; omega)

theorem rollingMax_congr (pt1 pt2 : PriceTable) (s : String) (w j : ℕ)
    (h : ∀ j', j' ≤ j → pt1.price s j' = pt2.price s j') :
    rollingMax pt1 s w j = rollingMax pt2 s w j := by
  unfold rollingMax
  by_cases hw : w ≤ j + 1
  · rw [if_pos hw, if_pos hw, windowVals_congr pt1 pt2 s w j hw h]
  · rw [if_neg hw, if_neg hw]

theorem rollingMin_congr (pt1 pt2 : PriceTable) (s : String) (w j : ℕ)
    (h : ∀ j', j' ≤ j → pt1.price s j' = pt2.price s j') :
    rollingMin pt1 s w j = rollingMin pt2 s w j := by
  unfold rollingMin
  by_cases hw : w ≤ j + 1
  · rw [if_pos hw, if_pos hw, windowVals_congr pt1 pt2 s w j hw h]
  · rw [if_neg hw, if_neg hw]

theorem drawdown_congr (pt1 pt2 : PriceTable) (j : ℕ)
    (h : ∀ j', j' ≤ j → pt1.price benchmark_index j' = pt2.price benchmark_index j') :
    drawdown pt1 j = drawdown pt2 j := by
  unfold drawdown
  rw [h j le_rfl, rollingMax_congr pt1 pt2 benchmark_index 20 j h]

theorem upward_move_congr (pt1 pt2 : PriceTable) (j : ℕ)
    (h : ∀ j', j' ≤ j → pt1.price benchmark_index j' = pt2.price benchmark_index j') :
    upward_move pt1 j = upward_move pt2 j := by
  unfold upward_move
  rw [h j le_rfl, rollingMin_congr pt1 pt2 benchmark_index 20 j h]

theorem momentum_congr (pt1 pt2 : PriceTable) (s : String) (t : ℕ)
    (h : ∀ j, j < t → pt1.price s j = pt2.price s j) :
    momentum pt1 s t = momentum pt2 s t := by
  unfold momentum
  by_cases h0 : t = 0
  · rw [if_pos h0, if_pos h0]
  · rw [if_neg h0, if_neg h0]
    by_cases h60 : 60 ≤ t - 1
    · rw [if_pos h60, if_pos h60, h (t - 1) (by omega), h (t - 1 - 60) (by omega)]
    · rw [if_neg h60, if_neg h60]

/-- C4 (no look-ahead): if two price tables agree on every price strictly
before date `t`, then the risk-off signal, the risk-on signal and the
top-2 momentum selection used to trade on day `t` coincide — mutating the
price at `t` or any later price changes no trade taken on day `t`. -/
theorem c4_no_lookahead (pt1 pt2 : PriceTable) (stocks : List String) (a b : ℚ) (t : ℕ)
    (h : ∀ s j, j < t → pt1.price s j = pt2.price s j) :
    signalRiskOff pt1 a t = signalRiskOff pt2 a t ∧
    signalRiskOn pt1 a b t = signalRiskOn pt2 a b t ∧
    topStocks pt1 stocks t = topStocks pt2 stocks t := by
  refine ⟨?_, ?_, ?_⟩
  · unfold signalRiskOff
    by_cases h0 : t = 0
    · rw [if_pos h0, if_pos h0]
    · rw [if_neg h0, if_neg h0]
      unfold rawRiskOff
      rw [drawdown_congr pt1 pt2 (t - 1) (fun j' hj' => h _ _ (by omega))]
  · unfold signalRiskOn
    by_cases h0 : t = 0
    · rw [if_pos h0, if_pos h0]
    · rw [if_neg h0, if_neg h0]
      unfold rawRiskOn
      rw [drawdown_congr pt1 pt2 (t - 1) (fun j' hj' => h _ _ (by omega)),
        upward_move_congr pt1 pt2 (t - 1) (fun j' hj' => h _ _ (by omega))]
  · unfold topStocks
    have : (stocks.filterMap fun s => (momentum pt1 s t).map fun m => (s, m)) =
        stocks.filterMap fun s => (momentum pt2 s t).map fun m => (s, m) := by
      apply List.filterMap_congr
      intro s _
      rw [momentum_congr pt1 pt2 s t (fun j hj => h s j hj)]
    rw [this]

/-- Witness for C4: `ptRallyMut` replaces every `ptRally` price from
position 22 onward, yet the signals and the momentum selection at date 22
are unchanged. -/
theorem c4_witness :
    signalRiskOn ptRally 8 5 22 = signalRiskOn ptRallyMut 8 5 22 ∧
    signalRiskOff ptRally 8 22 = signalRiskOff ptRallyMut 8 22 ∧
    topStocks ptRally ["AAA.NS", "BBB.NS"] 22 = topStocks ptRallyMut ["AAA.NS", "BBB.NS"] 22 := by
  have h : ∀ (s : String) (j : ℕ), j < 22 → ptRally.price s j = ptRallyMut.price s j := by
    intro s j hj
    show ptRally.price s j = if 22 ≤ j then some 42 else ptRally.price s j
    rw [if_neg (by omega)]
  exact ⟨(c4_no_lookahead ptRally ptRallyMut ["AAA.NS", "BBB.NS"] 8 5 22 h).2.1,
    (c4_no_lookahead ptRally ptRallyMut ["AAA.NS", "BBB.NS"] 8 5 22 h).1,
    (c4_no_lookahead ptRally ptRallyMut ["AAA.NS", "BBB.NS"] 8 5 22 h).2.2⟩

/-! Claim C2: when the trade log emits an entry. -/

/-- The amended spec-side trade-log construction: walk the return-table
dates in order tracking the previous date's resolved mode — starting from
no previous mode at all (the NaN of `shift(1)`), not from Neutral — and
emit an `ENTER` entry whenever the resolved mode differs from the tracked
one; in particular the first date always emits. -/
def tradeLogWalk (pt : PriceTable) (stocks : List String) (a b : ℚ) :
    Option String → List ℕ → List TradeLogEntry
  | _, [] => []
  | prev, t :: ts =>
    if prev = some (resolveMode pt a b t) then
      tradeLogWalk pt stocks a b (some (resolveMode pt a b t)) ts
    else
      ⟨t, resolveMode pt a b t, "ENTER", logAssets pt stocks a b t⟩ ::
        tradeLogWalk pt stocks a b (some (resolveMode pt a b t)) ts

theorem tradeLogFilter_eq_walk (pt : PriceTable) (stocks : List String) (a b : ℚ)
    (idx : List ℕ) (prev : Option String) :
    tradeLogFilter pt stocks a b
        (idx.zip (prev :: idx.map fun t => some (resolveMode pt a b t))) =
      tradeLogWalk pt stocks a b prev idx := by
  induction idx generalizing prev with
  | nil => rfl
  | cons t ts ih =>
    rw [List.map_cons, List.zip_cons_cons]
    unfold tradeLogFilter tradeLogWalk
    by_cases hp : prev = some (resolveMode pt a b t)
    · rw [if_pos hp, if_pos hp, ih]
    · rw [if_neg hp, if_neg hp, ih]

/-- C2 (amended): the code's trade log — the `log_data` rows whose mode
differs from the `shift(1)` previous mode — equals the walk that tracks
the previous mode starting from no mode at all.  The first return-table
date therefore always emits an entry, even when its resolved mode is
Neutral (the mode tracked before the first date is the NaN of `shift(1)`,
not Neutral). -/
theorem c2_trade_log_characterization (pt : PriceTable) (stocks : List String) (a b : ℚ) :
    tradeLog pt stocks a b =
      tradeLogWalk pt stocks a b none (returnsIndex pt stocks) := by
  unfold tradeLog shiftedModes
  exact tradeLogFilter_eq_walk pt stocks a b (returnsIndex pt stocks) none

/-- Counterexample to C2 as stated: on the flat table every resolved mode
is Neutral — in particular the first date's — yet the engine still emits a
trade-log entry for the first date, because pandas compares the first
mode against the NaN produced by `shift(1)` and `"Neutral" != NaN` holds.
The claim predicted no entry at all for this run. -/
theorem c2_counterexample :
    resolveMode ptFlat 8 5 1 = "Neutral" ∧
    (run_full_backtest ptFlat ["AAA.NS", "BBB.NS"] 8 5).2 =
      [⟨1, "Neutral", "ENTER", ["NIFTYBEES.NS"]⟩] := by
  with_unfolding_all decide

/-! Claim C1: how the cumulative columns start and step. -/

theorem cumprodAux_get0 (acc : ℚ) (xs : List (Option ℚ)) (y : ℚ)
    (h : xs.get? 0 = some (some y)) :
    (cumprodAux acc xs).get? 0 = some (some (acc * y)) := by
  cases xs with
  | nil => simp at h
  | cons x xs' =>
    cases x with
    | none => simp at h
    | some v =>
      rw [List.get?_cons_zero] at h
      injection h with h
      injection h with h
      subst h
      rfl

theorem cumprodAux_step (xs : List (Option ℚ)) (acc : ℚ) (i : ℕ) (x y : ℚ)
    (hc : (cumprodAux acc xs).get? i = some (some x))
    (hx : xs.get? (i + 1) = some (some y)) :
    (cumprodAux acc xs).get? (i + 1) = some (some (x * y)) := by
  induction xs generalizing acc i with
  | nil => simp [cumprodAux] at hc
  | cons hd tl ih =>
    cases hd with
    | none =>
      cases i with
      | zero => simp [cumprodAux] at hc
      | succ i' =>
        rw [show cumprodAux acc (none :: tl) = none :: cumprodAux acc tl from rfl] at hc ⊢
        rw [List.get?_cons_succ] at hc ⊢
        rw [List.get?_cons_succ] at hx
        exact ih acc i' hc hx
    | some v =>
      rw [show cumprodAux acc (some v :: tl) = some (acc * v) :: cumprodAux (acc * v) tl
        from rfl] at hc ⊢
      rw [List.get?_cons_succ] at hx
      cases i with
      | zero =>
        rw [List.get?_cons_zero] at hc
        injection hc with hc
        injection hc with hc
        rw [List.get?_cons_succ]
        rw [cumprodAux_get0 (acc * v) tl y hx, hc]
      | succ i' =>
        rw [List.get?_cons_succ] at hc ⊢
        exact ih (acc * v) i' hc hx

theorem cumcol_start (idx : List ℕ) (f : ℕ → Option ℚ) (t : ℕ) (r : ℚ)
    (ht : idx.get? 0 = some t) (hf : f t = some r) :
    (cumprodSkipna (idx.map fun u => oAdd (some 1) (f u))).get? 0 = some (some (1 + r)) := by
  have hm : (idx.map fun u => oAdd (some 1) (f u)).get? 0 = some (some (1 + r)) := by
    rw [List.get?_map, ht]
    show some (oAdd (some 1) (f t)) = some (some (1 + r))
    rw [hf]
    rfl
  have := cumprodAux_get0 1 (idx.map fun u => oAdd (some 1) (f u)) (1 + r) hm
  rwa [one_mul] at this

theorem cumcol_step (idx : List ℕ) (f : ℕ → Option ℚ) (i t : ℕ) (x y : ℚ)
    (hc : (cumprodSkipna (idx.map fun u => oAdd (some 1) (f u))).get? i = some (some x))
    (ht : idx.get? (i + 1) = some t) (hf : f t = some y) :
    (cumprodSkipna (idx.map fun u => oAdd (some 1) (f u))).get? (i + 1) =
      some (some (x * (1 + y))) := by
  have hm : (idx.map fun u => oAdd (some 1) (f u)).get? (i + 1) = some (some (1 + y)) := by
    rw [List.get?_map, ht]
    show some (oAdd (some 1) (f t)) = some (some (1 + y))
    rw [hf]
    rfl
  exact cumprodAux_step _ 1 i x (1 + y) hc hm

/-- C1 (amended): each of the three cumulative columns is the running
product of (1 + daily strategy return) with the implicit value 1.0 sitting
BEFORE the first return-table date: the first stored value is
`1 + r(first)` — not 1.0 — and every later date whose own daily return is
defined satisfies `cumulative(t) = cumulative(previous date) × (1 +
daily_return(t))` whenever the previous cumulative value is defined. -/
theorem c1_cumulative_recurrence (pt : PriceTable) (stocks : List String) (a b : ℚ) :
    ((∀ t r, (returnsIndex pt stocks).get? 0 = some t → buy_and_hold pt t = some r →
        (resultsTable pt stocks a b).buy_and_hold_cumulative.get? 0 = some (some (1 + r))) ∧
      (∀ i t x y,
        (resultsTable pt stocks a b).buy_and_hold_cumulative.get? i = some (some x) →
        (returnsIndex pt stocks).get? (i + 1) = some t → buy_and_hold pt t = some y →
        (resultsTable pt stocks a b).buy_and_hold_cumulative.get? (i + 1) =
          some (some (x * (1 + y))))) ∧
    ((∀ t r, (returnsIndex pt stocks).get? 0 = some t → safe_hedge pt a t = some r →
        (resultsTable pt stocks a b).safe_hedge_cumulative.get? 0 = some (some (1 + r))) ∧
      (∀ i t x y,
        (resultsTable pt stocks a b).safe_hedge_cumulative.get? i = some (some x) →
        (returnsIndex pt stocks).get? (i + 1) = some t → safe_hedge pt a t = some y →
        (resultsTable pt stocks a b).safe_hedge_cumulative.get? (i + 1) =
          some (some (x * (1 + y))))) ∧
    ((∀ t r, (returnsIndex pt stocks).get? 0 = some t →
        dynamic_strat pt (validStockList pt stocks) a b t = some r →
        (resultsTable pt stocks a b).dynamic_strat_cumulative.get? 0 = some (some (1 + r))) ∧
      (∀ i t x y,
        (resultsTable pt stocks a b).dynamic_strat_cumulative.get? i = some (some x) →
        (returnsIndex pt stocks).get? (i + 1) = some t →
        dynamic_strat pt (validStockList pt stocks) a b t = some y →
        (resultsTable pt stocks a b).dynamic_strat_cumulative.get? (i + 1) =
          some (some (x * (1 + y))))) := by
  have hbh : (resultsTable pt stocks a b).buy_and_hold_cumulative =
      cumprodSkipna ((returnsIndex pt stocks).map fun u => oAdd (some 1) (buy_and_hold pt u)) :=
    rfl
  have hsh : (resultsTable pt stocks a b).safe_hedge_cumulative =
      cumprodSkipna ((returnsIndex pt stocks).map fun u => oAdd (some 1) (safe_hedge pt a u)) :=
    rfl
  have hds : (resultsTable pt stocks a b).dynamic_strat_cumulative =
      cumprodSkipna ((returnsIndex pt stocks).map fun u =>
        oAdd (some 1) (dynamic_strat pt (validStockList pt stocks) a b u)) := rfl
  refine ⟨⟨?_, ?_⟩, ⟨?_, ?_⟩, ⟨?_, ?_⟩⟩
  · intro t r ht hf
    rw [hbh]
    exact cumcol_start _ _ t r ht hf
  · intro i t x y hc ht hf
    rw [hbh] at hc ⊢
    exact cumcol_step _ _ i t x y hc ht hf
  · intro t r ht hf
    rw [hsh]
    exact cumcol_start _ _ t r ht hf
  · intro i t x y hc ht hf
    rw [hsh] at hc ⊢
    exact cumcol_step _ _ i t x y hc ht hf
  · intro t r ht hf
    rw [hds]
    exact cumcol_start _ _ t r ht hf
  · intro i t x y hc ht hf
    rw [hds] at hc ⊢
    exact cumcol_step _ _ i t x y hc ht hf

/-- Counterexample to C1 as stated: on `ptJump` (5% benchmark jump on the
second date) the run produces non-empty results, but the Passive
cumulative column starts at 1.05, not at 1.0 — the code's
`(1 + returns).cumprod()` never stores the initial 1.0. -/
theorem c1_counterexample :
    (run_full_backtest ptJump ["AAA.NS", "BBB.NS"] 8 5).1.buy_and_hold_cumulative.head? =
      some (some (21 / 20)) ∧ (21 / 20 : ℚ) ≠ 1 := by
  with_unfolding_all decide

/-- Witness for C1 (amended) on `ptJump`: the first Passive cumulative
value is `1 + 1/20`, and the second is the first times `1 + 0`. -/
theorem c1_witness :
    (resultsTable ptJump ["AAA.NS", "BBB.NS"] 8 5).buy_and_hold_cumulative.get? 0 =
      some (some (1 + 1 / 20)) ∧
    (resultsTable ptJump ["AAA.NS", "BBB.NS"] 8 5).buy_and_hold_cumulative.get? 1 =
      some (some ((1 + 1 / 20) * (1 + 0))) := by
  refine ⟨?_, ?_⟩
  · exact (c1_cumulative_recurrence ptJump ["AAA.NS", "BBB.NS"] 8 5).1.1 1 (1 / 20)
      (by with_unfolding_all decide) (by with_unfolding_all decide)
  · exact (c1_cumulative_recurrence ptJump ["AAA.NS", "BBB.NS"] 8 5).1.2 0 2 (1 + 1 / 20) 0
      (by with_unfolding_all decide) (by with_unfolding_all decide)
      (by with_unfolding_all decide)

/-! Claims C7 and C9: the degenerate branches of
`calculate_performance_metrics`. -/

/-- Counterexample to C7 as stated: the non-empty cumulative series
`[1, 1, 1, NaN]` has derived daily returns `[0, 0]` with zero standard
deviation, yet the metrics function returns the empty dict — not a dict
holding only total return — because the NaN last value is caught first. -/
theorem c7_counterexample :
    ([some 1, some 1, some 1, none] : List (Option ℚ)) ≠ [] ∧
    stdIsZero (metricsDailyReturns [some 1, some 1, some 1, none]) = true ∧
    calculate_performance_metrics [some 1, some 1, some 1, none] = [] := by
  with_unfolding_all decide

/-- C7 (amended): for every cumulative series whose LAST value is defined
(in particular the series is non-empty) and whose derived daily-return
series has zero standard deviation, the metrics dict holds the
total-return key only — the Sharpe-ratio and max-drawdown keys are
absent, and no division by zero can occur since both divisions are in the
skipped branch. -/
theorem c7_zero_std_total_only (c : List (Option ℚ))
    (h1 : (c.getLast?).join.isSome = true)
    (h2 : stdIsZero (metricsDailyReturns c) = true) :
    calculate_performance_metrics c = ["Total Return (%)"] := by
  have hne : c.isEmpty = false := by
    cases c with
    | nil => simp at h1
    | cons x xs => rfl
  have hj : (c.getLast?).join.isNone = false := by
    cases hjj : (c.getLast?).join with
    | none => rw [hjj] at h1; simp at h1
    | some v => rfl
  unfold calculate_performance_metrics
  rw [hne, hj, h2]
  rfl

/-- Witness for C7 (amended): the constant series `[1, 1, 1]` has zero-std
daily returns and yields exactly the total-return key. -/
theorem c7_witness :
    calculate_performance_metrics [some 1, some 1, some 1] = ["Total Return (%)"] :=
  c7_zero_std_total_only [some 1, some 1, some 1] (by decide)
    (by with_unfolding_all decide)

/-- C9: an empty cumulative series, or one whose last value is NaN, makes
`calculate_performance_metrics` return the empty dict (the guard
`cumulative_returns.empty or pd.isna(cumulative_returns.iloc[-1])` fires
before anything else is computed, so nothing can fail). -/
theorem c9_empty_or_nan_last_empty_metrics (c : List (Option ℚ))
    (h : c = [] ∨ (c.getLast?).join.isNone = true) :
    calculate_performance_metrics c = [] := by
  unfold calculate_performance_metrics
  rcases h with h | h
  · subst h; rfl
  · rw [h]; simp

/-- Witness for C9: a series ending in NaN yields the empty dict. -/
theorem c9_witness :
    (([some 1, none] : List (Option ℚ)) = [] ∨
      (([some 1, none] : List (Option ℚ)).getLast?).join.isNone = true) ∧
    calculate_performance_metrics [some 1, none] = [] :=
  ⟨Or.inr (by decide), c9_empty_or_nan_last_empty_metrics [some 1, none] (Or.inr (by decide))⟩

/-! Claim C8: validation failure returns the empty table pair. -/

/-- C8: whenever validation fails — the benchmark, neutral or defensive
column is missing or entirely empty after fetching, or fewer than two
candidates survive — `run_full_backtest` returns the empty results table
and the empty trade log (the model is a total function, so no exception
reaches the caller). -/
theorem c8_validation_failure_empty (pt : PriceTable) (stocks : List String) (a b : ℚ)
    (h : hasData pt benchmark_index = false ∨ hasData pt neutral_etf = false ∨
      hasData pt safe_haven_etf = false ∨ (validStockList pt stocks).length < 2) :
    run_full_backtest pt stocks a b = (emptyResults, []) := by
  have hv : validationOk pt stocks = false := by
    unfold validationOk
    rcases h with h | h | h | h
    · simp [h]
    · simp [h]
    · simp [h]
    · have hlen : ¬ (2 ≤ (validStockList pt stocks).length) := by omega
      simp [hlen]
  unfold run_full_backtest
  simp [hv]

/-- Witness for C8: on the table where every fetch failed, the benchmark
column is empty and the engine returns the empty pair. -/
theorem c8_witness :
    hasData ptEmpty benchmark_index = false ∧
    run_full_backtest ptEmpty ["AAA.NS", "BBB.NS"] 8 5 = (emptyResults, []) :=
  ⟨by decide,
    c8_validation_failure_empty ptEmpty ["AAA.NS", "BBB.NS"] 8 5 (Or.inl (by decide))⟩

/-! Claim C10: a risk-on date with no defined momentum poisons the Dynamic
column. -/

/-- C10: on `ptRally` (25 sessions, so 60-day momentum is everywhere
undefined), the risk-on signal is true at date 22 while both candidates'
momenta are NaN; the top-2 selection is then empty, the Dynamic daily
return at 22 is the NaN mean over an empty selection, and the Dynamic
cumulative column is NaN from date 22 through the end of the run (the
last three of its 24 entries, for dates 22, 23 and 24). -/
theorem c10_attack_without_momentum :
    ptRally.n = 25 ∧
    signalRiskOn ptRally 8 5 22 = true ∧
    momentum ptRally "AAA.NS" 22 = none ∧
    momentum ptRally "BBB.NS" 22 = none ∧
    topStocks ptRally ["AAA.NS", "BBB.NS"] 22 = [] ∧
    dynamic_strat ptRally ["AAA.NS", "BBB.NS"] 8 5 22 = none ∧
    (run_full_backtest ptRally ["AAA.NS", "BBB.NS"] 8 5).1.dates.drop 21 = [22, 23, 24] ∧
    ((run_full_backtest ptRally ["AAA.NS", "BBB.NS"] 8 5).1.dynamic_strat_cumulative).length =
      24 ∧
    ((run_full_backtest ptRally ["AAA.NS", "BBB.NS"] 8 5).1.dynamic_strat_cumulative).drop 21 =
      [none, none, none] := by
  with_unfolding_all decide

end Backtest
